import Mathlib

/-
Shallow embedding of the flask_open_directory repository
(model/model.py, model/model_abc.py, model/__init__.py,
query/base_query.py, query/__init__.py, base/open_directory_abc.py),
together with theorems settling the frozen claims about it.

Raw ldap values are strings or lists of strings; Python `None` is
modelled by `Option.none` throughout.
-/

namespace FlaskOpenDirectory

/-- Raw value stored for a model attribute: LDAP libraries hand values back
as strings or lists of strings (`entry_attributes_as_dict` values are lists). -/
inductive LdapRaw where
  | str (s : String)
  | list (xs : List String)
deriving DecidableEq, Repr

/-- Python truthiness of a raw ldap value: empty strings and empty lists are
falsy, everything else is truthy. -/
def raw_truthy : LdapRaw → Bool
  | .str s => s != ""
  | .list xs => !xs.isEmpty

/-- Substring test on lists of characters, used for Python's `in` on strings. -/
def chars_in (n h : List Char) : Bool :=
  match h with
  | [] => n.isEmpty
  | _ :: t => List.isPrefixOf n h || chars_in n t

/-- Python's `needle in hay` for strings: substring containment. -/
def str_in (needle hay : String) : Bool :=
  chars_in needle.toList hay.toList

/-- Python's `x in v` where `v` is a raw ldap value: list membership for
lists, substring containment for strings. -/
def py_in_raw (x : String) (v : LdapRaw) : Bool :=
  match v with
  | .list xs => xs.contains x
  | .str s => str_in x s

/-- Dict update with insertion-order preservation: replaces the value of an
existing key in place, otherwise appends the new binding at the end,
mirroring Python dict assignment `d[k] = v`. -/
def assocSet (l : List (String × LdapRaw)) (k : String) (v : LdapRaw) :
    List (String × LdapRaw) :=
  match l with
  | [] => [(k, v)]
  | (k', v') :: rest => if k' = k then (k, v) :: rest else (k', v') :: assocSet rest k v

/-- Errors the embedded Python code can raise. -/
inductive PyErr where
  | typeError
  | attributeError
deriving DecidableEq, Repr

/-- model/model.py `Attribute`: maps an ldap entry key to a model attribute.
`allow_multiple = false` means accessors return only the first item of a
stored list. -/
structure Attribute where
  ldap_key : String
  allow_multiple : Bool
deriving DecidableEq, Repr

/-- A `BaseModel` subclass (`vars(cls)` restricted to its `Attribute`-valued
entries, in declaration order), together with the class name and the
`_query_cn` class attribute from `ModelABC` (default `None`).
Non-`Attribute` class members (methods, docstrings) are outside the
embedding; every mapping-related classmethod only consults the
`Attribute` entries. -/
structure ModelClass where
  name : String
  _query_cn : Option String
  attrs : List (String × Attribute)
deriving DecidableEq, Repr

/-- model/model.py `BaseModel.ldap_attribute_map`: mapping of
python attribute name to ldap entry key, from the `Attribute` declarations. -/
def ldap_attribute_map (cls : ModelClass) : List (String × String) :=
  cls.attrs.map (fun kv => (kv.1, kv.2.ldap_key))

/-- model/model_abc.py `ModelABC.ldap_keys`: the values of
`ldap_attribute_map`. -/
def ldap_keys (cls : ModelClass) : List String :=
  (ldap_attribute_map cls).map Prod.snd

/-- model/model_abc.py `ModelABC.attribute_name_for`: the python attribute
name whose mapped ldap key equals the given key, or `None`. -/
def attribute_name_for (cls : ModelClass) (ldap_key : String) : Option String :=
  (List.find? (fun kv => kv.2 == ldap_key) (ldap_attribute_map cls)).map Prod.fst

/-- Python `str.lower()` on a class name (character-wise lowercasing). -/
def py_lower (s : String) : String :=
  ⟨s.data.map Char.toLower⟩

/-- model/model_abc.py `ModelABC.query_cn`: `cls._query_cn or
cls.__name__.lower() + 's'` (Python `or` falls through on a falsy value,
i.e. on `None` or the empty string). -/
def query_cn (cls : ModelClass) : String :=
  match cls._query_cn with
  | some s => if s = "" then py_lower cls.name ++ "s" else s
  | none => py_lower cls.name ++ "s"

/-- model/model.py `BaseModel.attribute_for_key`: if the key is one of the
mapped ldap keys it is first translated to the attribute name (the
translation is guaranteed to succeed for such keys, so `getD` never takes
its fallback), then the class `Attribute` under that name is returned. -/
def attribute_for_key (cls : ModelClass) (key : String) : Option Attribute :=
  let key := if ((ldap_attribute_map cls).map Prod.snd).contains key
             then (attribute_name_for cls key).getD key
             else key
  cls.attrs.lookup key

/-- A `BaseModel` instance: its class plus the internal `ldap_values`
storage (a dict keyed by python attribute name).  Plain instance
attributes outside the attribute map are not modelled; no claim reads
them. -/
structure ModelInstance where
  cls : ModelClass
  ldap_values : List (String × LdapRaw)
deriving DecidableEq, Repr

/-- model/model.py `BaseModel._get_ldap_value`: fetches the stored value
for a python attribute name; when the value is truthy and the attribute
has `allow_multiple` false, a non-empty stored list yields its first
element; otherwise the stored value is returned unchanged (`dict.get`
yields `None` for a missing key).  `object.__getattribute__(self, key)`
fetches the class `Attribute`; the `none` branch of that lookup is
unreachable for the keys this is called with (keys of the attribute map). -/
def _get_ldap_value (m : ModelInstance) (key : String) : Option LdapRaw :=
  match m.ldap_values.lookup key with
  | none => none
  | some value =>
    match m.cls.attrs.lookup key with
    | none => some value
    | some attr =>
      if raw_truthy value && attr.allow_multiple == false then
        match value with
        | .list (x :: _) => some (.str x)
        | _ => some value
      else some value

/-- model/model.py `BaseModel.__setattr__`: a key that is a python attribute
name stores under itself; a key that is a mapped ldap key stores under the
translated attribute name; any other key becomes a plain instance
attribute (outside this embedding, dropped here). -/
def model_setattr (m : ModelInstance) (key : String) (value : LdapRaw) : ModelInstance :=
  if ((ldap_attribute_map m.cls).map Prod.fst).contains key then
    { m with ldap_values := assocSet m.ldap_values key value }
  else if ((ldap_attribute_map m.cls).map Prod.snd).contains key then
    match attribute_name_for m.cls key with
    | some fname => { m with ldap_values := assocSet m.ldap_values fname value }
    | none => m
  else m

/-- model/model.py `BaseModel.__init__`: stores each kwarg through
`__setattr__`, in order. -/
def model_init (cls : ModelClass) (kwargs : List (String × LdapRaw)) : ModelInstance :=
  kwargs.foldl (fun m kv => model_setattr m kv.1 kv.2) ⟨cls, []⟩

/-- model/model.py `BaseModel.__getattribute__` on a mapped name: a key that
is a python attribute name or a mapped ldap key resolves to the attribute
name and reads `_get_ldap_value`; any other key falls back to the normal
attribute lookup (methods etc., outside this embedding, `none` here;
the source variable holding the resolved name is called `ldap_key`
although it holds the python attribute name). -/
def model_getattr (m : ModelInstance) (key : String) : Option LdapRaw :=
  let attr_map := ldap_attribute_map m.cls
  let resolved : Option String :=
    if (attr_map.map Prod.fst).contains key then some key
    else if (attr_map.map Prod.snd).contains key then attribute_name_for m.cls key
    else none
  match resolved with
  | some k => _get_ldap_value m k
  | none => none

/-- An ldap3.Entry as the query layer sees it: its
`entry_attributes_as_dict`, a mapping from ldap key to list of values. -/
structure Entry where
  entry_attributes_as_dict : List (String × List String)
deriving DecidableEq, Repr

/-- model/model_abc.py `ModelABC.from_entry` applied to an actual entry:
`cls(**entry.entry_attributes_as_dict)`. -/
def from_entry_some (cls : ModelClass) (e : Entry) : ModelInstance :=
  model_init cls (e.entry_attributes_as_dict.map (fun kv => (kv.1, LdapRaw.list kv.2)))

/-- model/model_abc.py `ModelABC.from_entry` on a possibly-`None` entry:
`cls(**entry.entry_attributes_as_dict)` raises `AttributeError` when
`entry` is `None` (attribute access on `None`). -/
def from_entry (cls : ModelClass) (entry : Option Entry) : Except PyErr ModelInstance :=
  match entry with
  | none => .error .attributeError
  | some e => .ok (from_entry_some cls e)

/-- An ldap3.Connection, modelled by its observable behaviour in
`BaseQuery._query`: after `conn.search(search_base, search_filter,
attributes=...)`, `conn.entries` holds the entries the directory reports
for those parameters. -/
structure Connection where
  search : Option String → String → Option (List String) → List Entry

/-- An `OpenDirectoryABC` implementation as the query layer consumes it:
its `base_dn`, its `connection` property (the shared connection, `None`
when no flask application context is active), and the connection its
`connection_ctx` context manager yields. -/
structure OpenDirectory where
  base_dn : String
  connection : Option Connection
  ctx_connection : Option Connection

/-- The instance state of query/base_query.py `BaseQuery`: the private
backing attributes the property setters write (each `getattr(self, '_x',
None)` read justifies the `Option`). -/
structure QueryState where
  _search_base : Option String
  _search_filter : Option String
  _connection : Option Connection
  _ldap_attributes : Option (List String)
  _model : Option ModelClass
  _open_directory : Option OpenDirectory

/-- Python values relevant to the `BaseQuery` property setters, which accept
arbitrary objects and type-check them. -/
inductive PyVal where
  | none
  | bool (b : Bool)
  | int (n : Int)
  | str (s : String)
  | modelInst (m : ModelInstance)
  | modelCls (c : ModelClass)
  | conn (c : Connection)
  | openDir (od : OpenDirectory)

/-- Python truthiness of a `PyVal`; object instances without `__bool__` or
`__len__` (models, connections, open directories) are truthy. -/
def py_truthy : PyVal → Bool
  | .none => false
  | .bool b => b
  | .int n => n != 0
  | .str s => s != ""
  | .modelInst _ => true
  | .modelCls _ => true
  | .conn _ => true
  | .openDir _ => true

/-- Whether a value is a `ModelABC` instance or subclass. -/
def is_model_val : PyVal → Bool
  | .modelInst _ => true
  | .modelCls _ => true
  | _ => false

/-- Whether a value is an `ldap3.Connection`. -/
def is_conn_val : PyVal → Bool
  | .conn _ => true
  | _ => false

/-- Whether a value is an `OpenDirectoryABC` instance. -/
def is_open_directory_val : PyVal → Bool
  | .openDir _ => true
  | _ => false

/-- query/base_query.py `BaseQuery.model` setter: a falsy value is ignored;
a `ModelABC` instance stores its class; a `ModelABC` subclass is stored
as is; any other truthy value raises `TypeError` (either from the
explicit `raise TypeError()` or from `issubclass` rejecting a non-class
first argument). -/
def set_model (st : QueryState) (value : PyVal) : Except PyErr QueryState :=
  if py_truthy value then
    match value with
    | .modelInst m => .ok { st with _model := some m.cls }
    | .modelCls c => .ok { st with _model := some c }
    | _ => .error .typeError
  else .ok st

/-- query/base_query.py `BaseQuery.open_directory` setter: `None` is
ignored; an `OpenDirectoryABC` instance is stored; anything else raises
`TypeError(value)`. -/
def set_open_directory (st : QueryState) (value : PyVal) : Except PyErr QueryState :=
  match value with
  | .none => .ok st
  | .openDir od => .ok { st with _open_directory := some od }
  | _ => .error .typeError

/-- query/base_query.py `BaseQuery.connection` setter: a falsy value is
ignored; an `ldap3.Connection` is stored; any other truthy value raises
`TypeError()`. -/
def set_connection (st : QueryState) (value : PyVal) : Except PyErr QueryState :=
  if py_truthy value then
    match value with
    | .conn c => .ok { st with _connection := some c }
    | _ => .error .typeError
  else .ok st

/-- query/base_query.py `BaseQuery.search_base` setter: `None` is ignored,
otherwise `str(value)` is stored (the attribute is annotated `str`; we
model string inputs, on which `str` is the identity). -/
def set_search_base (st : QueryState) (value : Option String) : QueryState :=
  match value with
  | none => st
  | some v => { st with _search_base := some v }

/-- query/base_query.py `BaseQuery.search_filter` setter: `None` is ignored,
otherwise `str(value)` is stored. -/
def set_search_filter (st : QueryState) (value : Option String) : QueryState :=
  match value with
  | none => st
  | some v => { st with _search_filter := some v }

/-- Argument type of the `ldap_attributes` setter: a string or an iterable
of values. -/
inductive AttrsVal where
  | str (s : String)
  | seq (xs : List PyVal)

/-- Projection keeping only string elements, used by the `ldap_attributes`
setter's list comprehension filter `isinstance(s, str)`. -/
def pyStr? : PyVal → Option String
  | .str s => some s
  | _ => none

/-- query/base_query.py `BaseQuery.ldap_attributes` setter: `None` is
ignored; a non-string iterable is filtered down to its string elements;
a plain string is wrapped in a singleton list. -/
def set_ldap_attributes (st : QueryState) (value : Option AttrsVal) : QueryState :=
  match value with
  | none => st
  | some (.seq xs) => { st with _ldap_attributes := some (xs.filterMap pyStr?) }
  | some (.str s) => { st with _ldap_attributes := some [s] }

/-- query/base_query.py `BaseQuery.model` getter:
`getattr(self, '_model', None)`. -/
def model_getter (st : QueryState) : Option ModelClass :=
  st._model

/-- query/base_query.py `BaseQuery.search_base` getter: the explicit value
if set; otherwise derived from the open directory's `base_dn` and the
model's `query_cn()` (each `AttributeError` on a missing collaborator is
swallowed, leaving the corresponding part `None`): with both present the
result is `'cn=<cn>,<base>'` unless the cn already contains `'cn='`, in
which case it is `'<cn>,<base>'`; with only the base present it is the
base; otherwise `None`. -/
def search_base_getter (st : QueryState) : Option String :=
  match st._search_base with
  | some sb => some sb
  | none =>
    let od_base : Option String := st._open_directory.map OpenDirectory.base_dn
    let model_cn : Option String := st._model.map query_cn
    match model_cn, od_base with
    | some cn, some b =>
      if !(str_in "cn=" cn) then some ("cn=" ++ cn ++ "," ++ b)
      else some (cn ++ "," ++ b)
    | none, some b => some b
    | _, none => none

/-- query/base_query.py `BaseQuery.search_filter` getter: the explicit value
if set, else the class default `'(objectClass=*)'`. -/
def search_filter_getter (st : QueryState) : String :=
  match st._search_filter with
  | some sf => sf
  | none => "(objectClass=*)"

/-- query/base_query.py `BaseQuery.ldap_attributes` getter: the explicit
list if set, else the bound model's `ldap_keys()` (the `AttributeError`
when no model is bound is swallowed, leaving `None`). -/
def ldap_attributes_getter (st : QueryState) : Option (List String) :=
  match st._ldap_attributes with
  | some attrs => some attrs
  | none => st._model.map ldap_keys

/-- query/base_query.py `BaseQuery.connection` getter: the explicit
connection if set, else the open directory's `connection` property (the
`AttributeError` when no open directory is bound is swallowed). -/
def connection_getter (st : QueryState) : Option Connection :=
  match st._connection with
  | some c => some c
  | none => st._open_directory.bind OpenDirectory.connection

/-- query/base_query.py `BaseQuery.connection_ctx`: yields the resolved
connection if there is one, else whatever the open directory's
`connection_ctx` yields, else `None`. -/
def connection_ctx (st : QueryState) : Option Connection :=
  match connection_getter st with
  | some c => some c
  | none =>
    match st._open_directory with
    | some od => od.ctx_connection
    | none => none

/-- Test from the generator body of query/base_query.py `BaseQuery._query`:
`any(map(lambda x: len(x) > 0, entry.entry_attributes_as_dict.values()))`. -/
def entry_has_values (e : Entry) : Bool :=
  e.entry_attributes_as_dict.any (fun kv => decide (0 < kv.2.length))

/-- query/base_query.py `BaseQuery._query`: a non-`None` connection argument
is first assigned through the `connection` setter (ldap3 connections are
truthy instances, so the setter stores it); then the context connection,
if any, is searched with the effective base, filter and attributes, and
only entries with at least one non-empty attribute value are yielded.
Returns the updated instance state together with the yielded entries. -/
def _query (st : QueryState) (connection : Option Connection) :
    QueryState × List Entry :=
  let st := match connection with
    | some c => { st with _connection := some c }
    | none => st
  match connection_ctx st with
  | none => (st, [])
  | some conn =>
    (st, (conn.search (search_base_getter st) (search_filter_getter st)
            (ldap_attributes_getter st)).filter entry_has_values)

/-- Result of `first`: a converted model instance, a raw entry, or Python
`None`. -/
inductive QueryValue where
  | modelInst (m : ModelInstance)
  | entry (e : Entry)
  | none
deriving DecidableEq, Repr

/-- query/base_query.py `BaseQuery.first`:
`entry = next(self._query(connection), None)`; if `convert is True` and a
model is bound, returns `self.model.from_entry(entry)` (which raises
`AttributeError` when `entry` is `None`); otherwise returns the entry or
`None`.  Returns the updated instance state with the outcome. -/
def query_first (st : QueryState) (connection : Option Connection) (convert : Bool) :
    QueryState × Except PyErr QueryValue :=
  let r := _query st connection
  let entry := r.2.head?
  match convert, model_getter r.1 with
  | true, some cls => (r.1, (from_entry cls entry).map QueryValue.modelInst)
  | _, _ =>
    (r.1, .ok (match entry with
               | some e => QueryValue.entry e
               | none => QueryValue.none))

/-- query/base_query.py `BaseQuery.all`:
`entries = tuple(self._query(connection))`; when non-empty and
`convert is True` with a model bound, each entry is converted through
`from_entry`; otherwise the raw entries (possibly the empty tuple) are
returned.  Returns the updated instance state with the outcome. -/
def query_all (st : QueryState) (connection : Option Connection) (convert : Bool) :
    QueryState × Except PyErr (List QueryValue) :=
  let r := _query st connection
  let entries := r.2
  if 0 < entries.length then
    match convert, model_getter r.1 with
    | true, some cls =>
      (r.1, .ok (entries.map (fun e => QueryValue.modelInst (from_entry_some cls e))))
    | _, _ => (r.1, .ok (entries.map QueryValue.entry))
  else (r.1, .ok (entries.map QueryValue.entry))

/-- Per-criterion key translation from the loop body of
query/__init__.py `Query._parse_filter_kwargs`: with a model bound,
`mkey = self.model.attribute_for_key(key).ldap_key` (an `AttributeError`
when `attribute_for_key` returns `None`), and since `mkey` is an
attribute's ldap key it is never `None`, so `key = mkey`; with no model
the key is used verbatim. -/
def criterion_key (st : QueryState) (key : String) : Except PyErr String :=
  match model_getter st with
  | none => .ok key
  | some cls =>
    match attribute_for_key cls key with
    | none => .error .attributeError
    | some attr => .ok attr.ldap_key

/-- query/__init__.py `Query._parse_filter_kwargs`: yields
`'(key=value)'` for each criterion in order, translating each key through
the bound model (kwargs are always a mapping, so the `isinstance` guard
always passes; an empty kwargs dict yields nothing). -/
def _parse_filter_kwargs (st : QueryState) (kwargs : List (String × String)) :
    Except PyErr (List String) :=
  if 0 < kwargs.length then
    kwargs.mapM (fun kv => do
      let key ← criterion_key st kv.1
      pure ("(" ++ key ++ "=" ++ kv.2 ++ ")"))
  else .ok []

/-- query/__init__.py `Query._filter_string_from_kwargs`: more than one
parsed criterion is AND-combined as `'(&' + joined + ')'`, exactly one is
returned alone, none yields `None` (an exception from parsing
propagates). -/
def _filter_string_from_kwargs (st : QueryState) (kwargs : List (String × String)) :
    Except PyErr (Option String) :=
  match _parse_filter_kwargs st kwargs with
  | .error e => .error e
  | .ok parsed =>
    if 1 < parsed.length then .ok (some ("(&" ++ String.join parsed ++ ")"))
    else if parsed.length = 1 then .ok parsed.head?
    else .ok none

/-- model/__init__.py `User`: its `Attribute` declarations in order. -/
def User_cls : ModelClass :=
  { name := "User"
    _query_cn := none
    attrs := [("id", ⟨"apple-generateduid", false⟩),
              ("username", ⟨"uid", false⟩),
              ("email", ⟨"mail", true⟩),
              ("full_name", ⟨"cn", false⟩)] }

/-- model/__init__.py `Group`: its `Attribute` declarations in order. -/
def Group_cls : ModelClass :=
  { name := "Group"
    _query_cn := none
    attrs := [("id", ⟨"apple-generateduid", false⟩),
              ("group_name", ⟨"cn", false⟩),
              ("full_name", ⟨"apple-group-realname", false⟩),
              ("users", ⟨"memberUid", true⟩),
              ("member_ids", ⟨"apple-group-memberguid", true⟩)] }

/-- model/__init__.py `Group.has_user`: true when the identifier occurs in
`self.users` (when that is not `None`) or in `self.member_ids` (when that
is not `None`); the sequential early-return structure of the source is
equivalent to this disjunction. -/
def has_user (g : ModelInstance) (user : String) : Bool :=
  (match model_getattr g "users" with
   | some v => py_in_raw user v
   | none => false) ||
  (match model_getattr g "member_ids" with
   | some v => py_in_raw user v
   | none => false)

/-- A freshly constructed query with nothing configured. -/
def q0 : QueryState := ⟨none, none, none, none, none, none⟩

/-- A query bound to the `User` model only. -/
def qU : QueryState := ⟨none, none, none, none, some User_cls, none⟩

/-- A connection whose every search reports no entries. -/
def miss_conn : Connection := ⟨fun _ _ _ => []⟩

/-- The sentinel pseudo-record some directories return when nothing
matches: every attribute value is an empty sequence. -/
def empty_entry : Entry := ⟨[("uid", []), ("cn", [])]⟩

/-- A connection whose every search reports only the sentinel entry. -/
def sentinel_conn : Connection := ⟨fun _ _ _ => [empty_entry]⟩

/-- An open directory handle with base dn `dc=example,dc=com`, outside any
application context. -/
def od0 : OpenDirectory := ⟨"dc=example,dc=com", none, none⟩

/-- A `Group` built the `from_entry` way from an entry carrying one
`memberUid` list; `__setattr__` stores it under the `users` field. -/
def g8 : ModelInstance := model_init Group_cls [("memberUid", LdapRaw.list ["alice", "bob"])]

/-- A query with every configurable slot explicitly set. -/
def st10 : QueryState := ⟨some "b", some "f", some miss_conn, some ["uid"], some User_cls, none⟩

/-- Helper: filtering by `entry_has_values` leaves only entries satisfying
it. -/
theorem all_entry_has_values_filter (l : List Entry) :
    (l.filter entry_has_values).all entry_has_values = true := by
  rw [List.all_eq_true]
  intro e he
  exact List.of_mem_filter he

/-- C1: the claim says `first(connection, convert=True)` on a miss returns
an absent value and never raises, even with a model bound.  The code
contradicts its own docstring ("This will return ``None`` if ... there
was no entry to match the filter criteria"): with a model bound and
`convert=True`, the miss is passed to `from_entry(None)`, which raises
`AttributeError` on `None.entry_attributes_as_dict`.  Only the
unconverted path returns `None`. -/
theorem first_miss_with_bound_model_raises :
    (query_first qU (some miss_conn) true).2 = .error PyErr.attributeError ∧
    (query_first qU (some miss_conn) false).2 = .ok QueryValue.none :=
  ⟨rfl, rfl⟩

/-- C2 counterexample: the claim says `first` performs no empty-entry
filtering and may return the empty-valued entry when it is the only entry
returned.  In the code `first` draws from the same filtering generator
`_query` as `all`: on a connection returning only the sentinel entry,
`first` (unconverted) returns `None`, not the entry. -/
theorem first_excludes_sentinel_entry_cex :
    (query_first q0 (some sentinel_conn) false).2 = .ok QueryValue.none ∧
    QueryValue.none ≠ QueryValue.entry empty_entry :=
  ⟨rfl, by decide⟩

/-- C2 amended: every entry yielded by the underlying generator `_query`
has at least one non-empty attribute value, so bulk queries AND
single-record queries both exclude all-empty entries; a search returning
only one sentinel entry yields an empty tuple from `all` and `None` from
`first`. -/
theorem query_excludes_empty_entries (st : QueryState) (oc : Option Connection) :
    ((_query st oc).2.all entry_has_values = true) ∧
    (query_all q0 (some sentinel_conn) false).2 = .ok [] ∧
    (query_first q0 (some sentinel_conn) false).2 = .ok QueryValue.none := by
  refine ⟨?_, rfl, rfl⟩
  have key : ∀ s : QueryState, ((match connection_ctx s with
      | none => (s, ([] : List Entry))
      | some conn => (s, (conn.search (search_base_getter s) (search_filter_getter s)
          (ldap_attributes_getter s)).filter entry_has_values)).2).all entry_has_values = true := by
    intro s
    cases connection_ctx s with
    | none => rfl
    | some conn => exact all_entry_has_values_filter _
  cases oc with
  | none => exact key st
  | some c => exact key { st with _connection := some c }

/-- C3 counterexample: the claim says a single-valued attribute
(`allow_multiple=False`) resolves a stored empty sequence to an absent
value.  The code's `_get_ldap_value` only takes the first element when
the stored value is truthy; an empty list is falsy and is returned
unchanged, which is not `None`. -/
theorem resolve_empty_single_cex :
    _get_ldap_value ⟨User_cls, [("id", LdapRaw.list [])]⟩ "id" = some (LdapRaw.list []) ∧
    some (LdapRaw.list []) ≠ (none : Option LdapRaw) := by
  exact ⟨by decide, by decide⟩

/-- C3 amended: for an attribute with `allow_multiple=False`, resolving a
stored non-empty sequence returns its first element, while a stored empty
sequence is returned unchanged (falsy, but not absent); absent is
returned only when no value is stored.  For `allow_multiple=True` the
stored sequence is returned unchanged, including an empty sequence. -/
theorem attribute_resolution (m : ModelInstance) (k : String) (a : Attribute)
    (ha : m.cls.attrs.lookup k = some a) :
    (a.allow_multiple = false → ∀ x xs,
        m.ldap_values.lookup k = some (LdapRaw.list (x :: xs)) →
        _get_ldap_value m k = some (LdapRaw.str x)) ∧
    (a.allow_multiple = false → m.ldap_values.lookup k = some (LdapRaw.list []) →
        _get_ldap_value m k = some (LdapRaw.list [])) ∧
    (a.allow_multiple = true → ∀ xs, m.ldap_values.lookup k = some (LdapRaw.list xs) →
        _get_ldap_value m k = some (LdapRaw.list xs)) ∧
    (m.ldap_values.lookup k = none → _get_ldap_value m k = none) := by
  refine ⟨?_, ?_, ?_, ?_⟩
  · intro hmult x xs hv
    unfold _get_ldap_value
    rw [hv, ha]
    simp [raw_truthy, hmult]
  · intro hmult hv
    unfold _get_ldap_value
    rw [hv, ha]
    simp [raw_truthy]
  · intro hmult xs hv
    unfold _get_ldap_value
    rw [hv, ha]
    simp [hmult]
  · intro hv
    unfold _get_ldap_value
    rw [hv]

/-- C3 witness: concrete evaluations through `attribute_resolution` on the
`User` model's single-valued `username` attribute. -/
theorem attribute_resolution_witness :
    _get_ldap_value ⟨User_cls, [("username", LdapRaw.list ["alice", "bob"])]⟩ "username" =
      some (LdapRaw.str "alice") ∧
    _get_ldap_value ⟨User_cls, [("username", LdapRaw.list [])]⟩ "username" =
      some (LdapRaw.list []) := by
  constructor
  · exact (attribute_resolution ⟨User_cls, [("username", LdapRaw.list ["alice", "bob"])]⟩
      "username" ⟨"uid", false⟩ (by decide)).1 rfl "alice" ["bob"] (by decide)
  · exact (attribute_resolution ⟨User_cls, [("username", LdapRaw.list [])]⟩
      "username" ⟨"uid", false⟩ (by decide)).2.1 rfl (by decide)

/-- Helper: `mapM` of the criterion renderer over kwargs whose keys all
translate successfully is the zipWith of the rendered criteria. -/
theorem parse_kwargs_mapM (st : QueryState) (kwargs : List (String × String))
    (ks : List String)
    (h : List.Forall₂ (fun kv k => criterion_key st kv.1 = Except.ok k) kwargs ks) :
    kwargs.mapM (fun kv => do
        let key ← criterion_key st kv.1
        pure ("(" ++ key ++ "=" ++ kv.2 ++ ")")) =
      Except.ok (List.zipWith (fun kv k => "(" ++ k ++ "=" ++ kv.2 ++ ")") kwargs ks) := by
  induction h with
  | nil => rfl
  | cons hk _ ih =>
    simp only [List.mapM_cons, List.zipWith_cons_cons, hk, ih]
    rfl

/-- Helper: a successful key translation with no model bound is the key
itself. -/
theorem criterion_key_verbatim (st : QueryState) (key k : String)
    (hm : st._model = none) (h : criterion_key st key = Except.ok k) : k = key := by
  have h' : (Except.ok key : Except PyErr String) = Except.ok k := by
    rw [← h]
    unfold criterion_key model_getter
    rw [hm]
  exact (Except.ok.inj h').symm

/-- Helper: a successful key translation with a model bound goes through
`attribute_for_key` and returns that attribute's ldap key. -/
theorem criterion_key_model (st : QueryState) (cls : ModelClass) (key k : String)
    (hm : st._model = some cls) (h : criterion_key st key = Except.ok k) :
    ∃ a, attribute_for_key cls key = some a ∧ k = a.ldap_key := by
  have h' : (match attribute_for_key cls key with
      | none => (Except.error PyErr.attributeError : Except PyErr String)
      | some attr => Except.ok attr.ldap_key) = Except.ok k := by
    rw [← h]
    unfold criterion_key model_getter
    rw [hm]
  cases hak : attribute_for_key cls key with
  | none => rw [hak] at h'; exact absurd h' (by simp)
  | some a => rw [hak] at h'; exact ⟨a, rfl, (Except.ok.inj h').symm⟩

/-- C4: with every supplied key translating (through the bound model when
one is bound, by `attribute_for_key`, and verbatim otherwise), the parsed
criteria are `(key=value)` strings in the order supplied; a single
criterion is the filter by itself, while two or more are AND-combined as
`(&(k1=v1)(k2=v2)...)`. -/
theorem filter_construction (st : QueryState) (kwargs : List (String × String))
    (ks : List String)
    (h : List.Forall₂ (fun kv k => criterion_key st kv.1 = Except.ok k) kwargs ks) :
    (_parse_filter_kwargs st kwargs =
        .ok (List.zipWith (fun kv k => "(" ++ k ++ "=" ++ kv.2 ++ ")") kwargs ks)) ∧
    (_filter_string_from_kwargs st kwargs =
        .ok (let ps := List.zipWith (fun kv k => "(" ++ k ++ "=" ++ kv.2 ++ ")") kwargs ks
             if 1 < ps.length then some ("(&" ++ String.join ps ++ ")") else ps.head?)) ∧
    (st._model = none → ks = kwargs.map Prod.fst) ∧
    (∀ cls, st._model = some cls →
        List.Forall₂ (fun kv k => ∃ a, attribute_for_key cls kv.1 = some a ∧ k = a.ldap_key)
          kwargs ks) := by
  have h1 : _parse_filter_kwargs st kwargs =
      .ok (List.zipWith (fun kv k => "(" ++ k ++ "=" ++ kv.2 ++ ")") kwargs ks) := by
    unfold _parse_filter_kwargs
    cases h with
    | nil => rfl
    | @cons kv k l1 l2 hk htl =>
      rw [if_pos (show 0 < (kv :: l1).length from Nat.succ_pos l1.length)]
      exact parse_kwargs_mapM st (kv :: l1) (k :: l2) (.cons hk htl)
  refine ⟨h1, ?_, ?_, ?_⟩
  · unfold _filter_string_from_kwargs
    rw [h1]
    cases hz : List.zipWith (fun kv k => "(" ++ k ++ "=" ++ kv.2 ++ ")") kwargs ks with
    | nil => rfl
    | cons p l =>
      cases l with
      | nil => rfl
      | cons p2 l2 => simp
  · intro hm
    clear h1
    induction h with
    | nil => rfl
    | cons hk _ ih =>
      simp only [List.map_cons, List.cons.injEq]
      exact ⟨criterion_key_verbatim st _ _ hm hk, ih⟩
  · intro cls hm
    clear h1
    induction h with
    | nil => exact .nil
    | cons hk _ ih => exact .cons (criterion_key_model st cls _ _ hm hk) ih

/-- C4 witness: with the `User` model bound, `username`/`full_name`
criteria translate to `uid`/`cn` and are AND-combined in order; with no
model bound the key is used verbatim. -/
theorem filter_construction_witness :
    _filter_string_from_kwargs qU [("username", "alice"), ("full_name", "Alice A")] =
      .ok (some "(&(uid=alice)(cn=Alice A))") ∧
    _filter_string_from_kwargs q0 [("username", "alice")] = .ok (some "(username=alice)") := by
  constructor
  · exact ((filter_construction qU [("username", "alice"), ("full_name", "Alice A")]
      ["uid", "cn"] (.cons rfl (.cons rfl .nil))).2.1).trans (by rfl)
  · exact ((filter_construction q0 [("username", "alice")]
      ["username"] (.cons rfl .nil)).2.1).trans (by rfl)

/-- C5: a query bound to the `User` model and an open directory with base
dn `dc=example,dc=com`, with no explicit base, filter or field list,
resolves its search base to `cn=users,dc=example,dc=com`, its filter to
`(objectClass=*)` and its attributes to exactly the model's declared
ldap keys; and an explicitly set search base always wins. -/
theorem user_query_effective_defaults (od : OpenDirectory)
    (hod : od.base_dn = "dc=example,dc=com") :
    (search_base_getter ⟨none, none, none, none, some User_cls, some od⟩ =
        some "cn=users,dc=example,dc=com") ∧
    (search_filter_getter ⟨none, none, none, none, some User_cls, some od⟩ =
        "(objectClass=*)") ∧
    (ldap_attributes_getter ⟨none, none, none, none, some User_cls, some od⟩ =
        some ["apple-generateduid", "uid", "mail", "cn"]) ∧
    (∀ (st : QueryState) (b : String), st._search_base = some b →
        search_base_getter st = some b) := by
  refine ⟨?_, rfl, rfl, ?_⟩
  · rw [show search_base_getter ⟨none, none, none, none, some User_cls, some od⟩ =
        some ("cn=" ++ query_cn User_cls ++ "," ++ od.base_dn) from rfl, hod]
    rfl
  · intro st b hb
    unfold search_base_getter
    rw [hb]

/-- C5 witness: the defaults and the explicit-override case at concrete
inputs. -/
theorem user_query_effective_defaults_witness :
    search_base_getter ⟨none, none, none, none, some User_cls, some od0⟩ =
      some "cn=users,dc=example,dc=com" ∧
    search_base_getter ⟨some "ou=people,dc=x", none, none, none, some User_cls, some od0⟩ =
      some "ou=people,dc=x" := by
  constructor
  · exact (user_query_effective_defaults od0 rfl).1
  · exact (user_query_effective_defaults od0 rfl).2.2.2
      ⟨some "ou=people,dc=x", none, none, none, some User_cls, some od0⟩ "ou=people,dc=x" rfl

/-- C6: when no connection is stored, no connection argument is given, and
the bound open directory (if any) provides no connection, `all()` returns
an empty tuple without raising, leaving the query unchanged. -/
theorem all_without_connection_empty (st : QueryState) (convert : Bool)
    (hc : st._connection = none)
    (hod : ∀ od, st._open_directory = some od →
        od.connection = none ∧ od.ctx_connection = none) :
    query_all st none convert = (st, .ok []) := by
  have hctx : connection_ctx st = none := by
    unfold connection_ctx connection_getter
    rw [hc]
    cases hd : st._open_directory with
    | none => rfl
    | some od => simp [(hod od hd).1, (hod od hd).2]
  unfold query_all _query
  simp [hctx]

/-- C6 witness: a fully unconfigured query's `all()` is the empty tuple. -/
theorem all_without_connection_empty_witness :
    query_all q0 none true = (q0, .ok []) :=
  all_without_connection_empty q0 true rfl (fun _ h => Option.noConfusion h)

/-- C7 counterexample: the claim says every invalid value raises TypeError
at the point of assignment.  The model and connection setters begin with
a truthiness test, so falsy invalid values (`False`, `0`, `''`, `None`)
are silently ignored instead of raising. -/
theorem falsy_invalid_assignment_cex :
    set_model q0 (PyVal.bool false) = .ok q0 ∧
    set_connection q0 (PyVal.int 0) = .ok q0 ∧
    is_model_val (PyVal.bool false) = false ∧
    is_conn_val (PyVal.int 0) = false :=
  ⟨rfl, rfl, rfl, rfl⟩

/-- C7 amended: every TRUTHY value that is not a valid model raises
TypeError when assigned to `model`; every truthy value that is not an
`ldap3.Connection` raises when assigned to `connection`; every non-None
value that is not an `OpenDirectoryABC` raises when assigned to
`open_directory`; falsy invalid values are silently ignored by the model
and connection setters. -/
theorem truthy_invalid_assignment_raises (st : QueryState) (v : PyVal) :
    (py_truthy v = true → is_model_val v = false →
        set_model st v = .error PyErr.typeError) ∧
    (py_truthy v = true → is_conn_val v = false →
        set_connection st v = .error PyErr.typeError) ∧
    (v ≠ PyVal.none → is_open_directory_val v = false →
        set_open_directory st v = .error PyErr.typeError) ∧
    (py_truthy v = false → set_model st v = .ok st ∧ set_connection st v = .ok st) := by
  refine ⟨?_, ?_, ?_, ?_⟩
  · intro h1 h2
    cases v <;> simp_all [set_model, py_truthy, is_model_val]
  · intro h1 h2
    cases v <;> simp_all [set_connection, py_truthy, is_conn_val]
  · intro h1 h2
    cases v <;> simp_all [set_open_directory, is_open_directory_val]
  · intro h1
    cases v <;> simp_all [set_model, set_connection, py_truthy]

/-- C7 witness: concrete truthy invalid assignments raising TypeError
through `truthy_invalid_assignment_raises`. -/
theorem truthy_invalid_assignment_raises_witness :
    set_model q0 (PyVal.str "x") = .error PyErr.typeError ∧
    set_connection q0 (PyVal.int 1) = .error PyErr.typeError ∧
    set_open_directory q0 (PyVal.bool false) = .error PyErr.typeError := by
  refine ⟨?_, ?_, ?_⟩
  · exact (truthy_invalid_assignment_raises q0 (PyVal.str "x")).1 rfl rfl
  · exact (truthy_invalid_assignment_raises q0 (PyVal.int 1)).2.1 rfl rfl
  · exact (truthy_invalid_assignment_raises q0 (PyVal.bool false)).2.2.1
      (fun h => PyVal.noConfusion h) rfl

/-- C8: `Group.has_user` returns true exactly when the identifier occurs in
the group's member-username list (`users`) or member-id list
(`member_ids`); an absent list contributes no matches, and the test is a
total boolean function (it never raises). -/
theorem has_user_membership (g : ModelInstance) (u : String)
    (us ms : Option (List String))
    (hu : model_getattr g "users" = us.map LdapRaw.list)
    (hm : model_getattr g "member_ids" = ms.map LdapRaw.list) :
    has_user g u = ((us.getD []).contains u || (ms.getD []).contains u) := by
  unfold has_user
  rw [hu, hm]
  cases us <;> cases ms <;> simp [py_in_raw]

/-- C8 witness: a group built from a `memberUid` entry has its listed users
and no others; its `member_ids` list is absent. -/
theorem has_user_membership_witness :
    has_user g8 "bob" = true ∧ has_user g8 "carol" = false := by
  constructor
  · exact (has_user_membership g8 "bob" (some ["alice", "bob"]) none
      (by decide) (by decide)).trans (by decide)
  · exact (has_user_membership g8 "carol" (some ["alice", "bob"]) none
      (by decide) (by decide)).trans (by decide)

/-- C9: passing a non-None connection argument to `first` or `all` stores
that connection on the query instance permanently: the returned state's
`_connection` is the passed connection, and subsequent connection
resolution uses it. -/
theorem connection_argument_persists (st : QueryState) (c : Connection) (convert : Bool) :
    ((query_first st (some c) convert).1)._connection = some c ∧
    ((query_all st (some c) convert).1)._connection = some c ∧
    connection_getter ((query_first st (some c) convert).1) = some c := by
  have hq : (_query st (some c)).1 = { st with _connection := some c } := by
    unfold _query
    cases h : connection_ctx { st with _connection := some c } <;> simp [h]
  have h1 : (query_first st (some c) convert).1 = { st with _connection := some c } := by
    cases convert <;> cases hsm : st._model <;>
      simp only [query_first, hq, model_getter, hsm]
  have h2 : (query_all st (some c) convert).1 = { st with _connection := some c } := by
    cases convert <;> cases hsm : st._model <;>
      (simp only [query_all, hq, model_getter, hsm]; split <;> rfl)
  refine ⟨by rw [h1], by rw [h2], by rw [h1]; rfl⟩

/-- Helper: the model setter either raises, leaves the state unchanged, or
stores some class. -/
theorem set_model_cases (st : QueryState) (v : PyVal) :
    set_model st v = .error PyErr.typeError ∨ set_model st v = .ok st ∨
    ∃ c, set_model st v = .ok { st with _model := some c } := by
  cases v with
  | modelInst m => exact .inr (.inr ⟨m.cls, rfl⟩)
  | modelCls c => exact .inr (.inr ⟨c, rfl⟩)
  | none => exact .inr (.inl rfl)
  | bool b =>
    cases b with
    | true => exact .inl rfl
    | false => exact .inr (.inl rfl)
  | int n =>
    by_cases hn : n = 0
    · subst hn; exact .inr (.inl rfl)
    · left; simp [set_model, py_truthy, hn]
  | str s =>
    by_cases hs : s = ""
    · subst hs; exact .inr (.inl rfl)
    · left; simp [set_model, py_truthy, hs]
  | conn c => exact .inl rfl
  | openDir od => exact .inl rfl

/-- Helper: the connection setter either raises, leaves the state
unchanged, or stores some connection. -/
theorem set_connection_cases (st : QueryState) (v : PyVal) :
    set_connection st v = .error PyErr.typeError ∨ set_connection st v = .ok st ∨
    ∃ c, set_connection st v = .ok { st with _connection := some c } := by
  cases v with
  | conn c => exact .inr (.inr ⟨c, rfl⟩)
  | none => exact .inr (.inl rfl)
  | bool b =>
    cases b with
    | true => exact .inl rfl
    | false => exact .inr (.inl rfl)
  | int n =>
    by_cases hn : n = 0
    · subst hn; exact .inr (.inl rfl)
    · left; simp [set_connection, py_truthy, hn]
  | str s =>
    by_cases hs : s = ""
    · subst hs; exact .inr (.inl rfl)
    · left; simp [set_connection, py_truthy, hs]
  | modelInst m => exact .inl rfl
  | modelCls c => exact .inl rfl
  | openDir od => exact .inl rfl

/-- C10: assigning `None` to `search_base`, `search_filter`,
`ldap_attributes`, `model` or `connection` is a no-op leaving the stored
value unchanged, and no assignment through these setters can clear an
already-set slot back to its unset state. -/
theorem none_assignment_noop (st : QueryState) (v : PyVal) (s : Option String)
    (a : Option AttrsVal) :
    (set_search_base st none = st) ∧
    (set_search_filter st none = st) ∧
    (set_ldap_attributes st none = st) ∧
    (set_model st PyVal.none = .ok st) ∧
    (set_connection st PyVal.none = .ok st) ∧
    (st._search_base.isSome = true →
        ((set_search_base st s)._search_base).isSome = true) ∧
    (st._search_filter.isSome = true →
        ((set_search_filter st s)._search_filter).isSome = true) ∧
    (st._ldap_attributes.isSome = true →
        ((set_ldap_attributes st a)._ldap_attributes).isSome = true) ∧
    (∀ st', st._model.isSome = true → set_model st v = .ok st' →
        st'._model.isSome = true) ∧
    (∀ st', st._connection.isSome = true → set_connection st v = .ok st' →
        st'._connection.isSome = true) := by
  refine ⟨rfl, rfl, rfl, rfl, rfl, ?_, ?_, ?_, ?_, ?_⟩
  · intro h; cases s <;> simp [set_search_base, h]
  · intro h; cases s <;> simp [set_search_filter, h]
  · intro h
    cases a with
    | none => simpa [set_ldap_attributes] using h
    | some av => cases av <;> simp [set_ldap_attributes]
  · intro st' h h'
    rcases set_model_cases st v with hc | hc | ⟨c, hc⟩ <;> rw [hc] at h'
    · exact absurd h' (by simp)
    · rw [← Except.ok.inj h']; exact h
    · rw [← Except.ok.inj h']; rfl
  · intro st' h h'
    rcases set_connection_cases st v with hc | hc | ⟨c, hc⟩ <;> rw [hc] at h'
    · exact absurd h' (by simp)
    · rw [← Except.ok.inj h']; exact h
    · rw [← Except.ok.inj h']; rfl

/-- C10 witness: on a fully configured query, `None`-assignment leaves the
state intact and a later string assignment keeps the slot set. -/
theorem none_assignment_noop_witness :
    ((set_search_base st10 (some "c"))._search_base).isSome = true ∧
    set_search_base st10 none = st10 := by
  constructor
  · exact (none_assignment_noop st10 PyVal.none (some "c") none).2.2.2.2.2.1 rfl
  · exact (none_assignment_noop st10 PyVal.none (some "c") none).1

end FlaskOpenDirectory
